import Mathlib

/-!
Verification of the currency-converter repository: the mobile client's
data/fallback logic (src/frontend/App.tsx) and the backend rate proxy
(src/unnamed/part_001), shallowly embedded in Lean.

Numbers are modelled by ℚ. The JavaScript values looked up in a rate table
are modelled by `JsVal`, which also has a NaN point so that JS truthiness
of a looked-up entry (`!rates[code]`, false for 0 and NaN and undefined)
is captured; JSON bodies are modelled by the `Json` inductive below.
Association lists `List (String × _)` stand for JS objects, with
`List.lookup` as property access and `setKey` as property update
(JS object keys are unique, which the construction preserves).
-/

namespace CurrencyConverter

/-- A JavaScript number-ish value stored in a rate table: a finite number
(as a rational) or NaN. -/
inductive JsVal where
  | num (q : ℚ)
  | nan
  deriving DecidableEq, Repr

/-- JS truthiness of a number: 0 and NaN are falsy. -/
def JsVal.truthy : JsVal → Bool
  | .num q => q != 0
  | .nan => false

/-- Numeric reading of a `JsVal` (NaN has no rational reading; the rate
computation only divides truthy values, so this default is never hit there). -/
def JsVal.toQ : JsVal → ℚ
  | .num q => q
  | .nan => 0

/-- Truthiness of a property access that may be `undefined` (absent key). -/
def optTruthy : Option JsVal → Bool
  | some v => v.truthy
  | none => false

/-- A rate table as seen by the cross-rate computation: JS object from
currency code to a JS number value. -/
abbrev RateTableJs := List (String × JsVal)

/-- The client's cross-rate computation, from src/frontend/App.tsx lines
705-708 (identical in src/unnamed/part_000 lines 261-264 and 841-844):

  if (!rates[fromCurrency] || !rates[toCurrency]) return 1;
  return rates[toCurrency] / rates[fromCurrency];
-/
def rate (rates : RateTableJs) (fromCurrency toCurrency : String) : ℚ :=
  if !(optTruthy (rates.lookup fromCurrency)) || !(optTruthy (rates.lookup toCurrency)) then 1
  else ((rates.lookup toCurrency).map JsVal.toQ).getD 0
      / ((rates.lookup fromCurrency).map JsVal.toQ).getD 0

/-- The built-in currency codes, src/frontend/App.tsx line 21. -/
def fallbackCurrencies : List String :=
  ["USD", "EUR", "GBP", "JPY", "CAD", "AUD", "CHF"]

/-- The built-in display names, src/frontend/App.tsx lines 23-31. -/
def fallbackNames : List (String × String) :=
  [("USD", "US Dollar"), ("EUR", "Euro"), ("GBP", "British Pound"),
   ("JPY", "Japanese Yen"), ("CAD", "Canadian Dollar"),
   ("AUD", "Australian Dollar"), ("CHF", "Swiss Franc")]

/-- The built-in base-rate table (units of each currency per one USD),
src/frontend/App.tsx lines 33-41. -/
def baseRates : List (String × ℚ) :=
  [("USD", 1), ("EUR", 92/100), ("GBP", 78/100), ("JPY", 1558/10),
   ("CAD", 136/100), ("AUD", 152/100), ("CHF", 86/100)]

/-- Truthiness of a possibly-absent numeric property (`!baseRates[base]`). -/
def optQTruthy : Option ℚ → Bool
  | some q => q != 0
  | none => false

/-- Fallback rate derivation, src/frontend/App.tsx lines 57-62:

  if (!baseRates[base]) return baseRates;
  const usdPerBase = 1 / baseRates[base];
  const entries = Object.entries(baseRates).map(([code, rate]) => [code, usdPerBase * rate]);
  return Object.fromEntries(entries);
-/
def deriveRatesFromFallback (base : String) : List (String × ℚ) :=
  if !(optQTruthy (baseRates.lookup base)) then baseRates
  else
    let usdPerBase : ℚ := 1 / ((baseRates.lookup base).getD 0)
    baseRates.map (fun p => (p.1, usdPerBase * p.2))

/-- Parsed JSON values, as delivered by `res.json()` / `JSON.parse`. -/
inductive Json where
  | null
  | bool (b : Bool)
  | num (q : ℚ)
  | str (s : String)
  | arr (elems : List Json)
  | obj (fields : List (String × Json))

/-- JS property access `j.k` on a parsed JSON value: a field of an object,
`undefined` (here `none`) otherwise. JSON.parse yields unique keys. -/
def Json.getField : Json → String → Option Json
  | .obj fields, k => fields.lookup k
  | _, _ => none

/-- JS truthiness of a parsed JSON value. -/
def Json.truthy : Json → Bool
  | .null => false
  | .bool b => b
  | .num q => q != 0
  | .str s => s != ""
  | .arr _ => true
  | .obj _ => true

/-- The check `j?.result === "success"` used by client and proxy alike. -/
def Json.isSuccess (j : Json) : Bool :=
  match j.getField "result" with
  | some (.str s) => s == "success"
  | _ => false

/-- The check `Array.isArray(j.k)`. -/
def Json.fieldIsArr (j : Json) (k : String) : Bool :=
  match j.getField k with
  | some (.arr _) => true
  | _ => false

/-- The truthiness test `j.k` used as a boolean (absent field is falsy). -/
def Json.fieldTruthy (j : Json) (k : String) : Bool :=
  match j.getField k with
  | some v => v.truthy
  | none => false

/-- JS object property update: `\x7b...o, [k]: v\x7d` overwrites the value at `k`
keeping its position, or appends `k` last when absent. -/
def setKey : List (String × α) → String → α → List (String × α)
  | [], k, v => [(k, v)]
  | p :: rest, k, v => if p.1 == k then (k, v) :: rest else p :: setKey rest k v

/-- `Object.fromEntries`, building a JS object from a pair list. -/
def fromEntries (l : List (String × α)) : List (String × α) :=
  l.foldl (fun acc p => setKey acc p.1 p.2) []

/-- Insert a code into a sorted code list (helper for `sortCodes`). -/
def insertSorted (s : String) : List String → List String
  | [] => [s]
  | x :: xs => if s ≤ x then s :: x :: xs else x :: insertSorted s xs

/-- The `.sort()` on the code array: lexicographic string order, as JS
default sort compares the (ASCII) code strings. -/
def sortCodes : List String → List String
  | [] => []
  | x :: xs => insertSorted x (sortCodes xs)

/-- Extraction of `supported_codes` entries: the code destructures each
element as `[code, name]` under the cast `as [string, string][]`, so each
element is an array whose first two entries are strings (extras ignored). -/
def extractPairs : Json → List (String × String)
  | .arr xs =>
    xs.filterMap (fun x =>
      match x with
      | .arr (.str c :: .str n :: _) => some (c, n)
      | _ => none)
  | _ => []

/-- The pair list `codesJson.supported_codes as [string, string][]`. -/
def supportedPairs (codesJson : Json) : List (String × String) :=
  extractPairs ((codesJson.getField "supported_codes").getD .null)

/-- The numeric entries of `ratesJson.conversion_rates` under the cast
`as Record<string, number>`. -/
def extractRates : Json → List (String × ℚ)
  | .obj fields =>
    fields.filterMap (fun p =>
      match p.2 with
      | .num q => some (p.1, q)
      | _ => none)
  | _ => []

/-- `(ratesJson.base_code as string) || "USD"`: the declared base code, with
the falsy empty string (and, per the cast, any non-string) replaced by USD. -/
def baseCodeOf (ratesJson : Json) : String :=
  match ratesJson.getField "base_code" with
  | some (.str s) => if s == "" then "USD" else s
  | _ => "USD"

/-- Truthiness of the optional env string `EXPO_PUBLIC_API_BASE_URL`
(`!apiBaseUrl`: absent or empty is falsy). -/
def strTruthy : Option String → Bool
  | some s => s != ""
  | none => false

/-- Outcome of one `fetch` call as the client observes it: the promise
rejects, or a response arrives with an `ok` flag and a body that either
parses as JSON (`some j`) or would make `res.json()` throw (`none`). -/
inductive FetchOutcome where
  | reject
  | response (ok : Bool) (body : Option Json)

/-- Whether reading this sub-fetch throws inside the try block: the fetch
rejected, or it was ok and `res.json()` failed. (`res.json()` is only
called when `res.ok`, so a bad body on a non-ok response never throws.) -/
def FetchOutcome.throwsJson : FetchOutcome → Bool
  | .reject => true
  | .response ok body => ok && body.isNone

/-- The client state fields written by the fetch cycle. -/
structure ClientState where
  currencies : List String
  currencyNames : List (String × String)
  rates : List (String × ℚ)
  usingFallback : Bool
  loading : Bool
  deriving DecidableEq, Repr

/-- The fetch cycle `loadSymbolsAndRates`, src/frontend/App.tsx lines
711-777, as a function from the configured base URL and the two fetch
outcomes to the final client state (URL string assembly is not modelled:
it does not affect the state). Branches in order: missing configuration;
an exception escaping the try block (either promise rejecting via
Promise.all, or a called `res.json()` throwing) reaching the catch block;
otherwise the independent application of each sub-fetch, with
`usingFallback = !(codesSuccess && ratesSuccess)`; `finally` clears
`loading` on every path. -/
def loadSymbolsAndRates (apiBaseUrl : Option String)
    (codesFetch ratesFetch : FetchOutcome) : ClientState :=
  if !(strTruthy apiBaseUrl) then
    { currencies := fallbackCurrencies
      currencyNames := fallbackNames
      rates := deriveRatesFromFallback "USD"
      usingFallback := true
      loading := false }
  else if codesFetch.throwsJson || ratesFetch.throwsJson then
    { currencies := fallbackCurrencies
      currencyNames := fallbackNames
      rates := deriveRatesFromFallback "USD"
      usingFallback := true
      loading := false }
  else
    match codesFetch, ratesFetch with
    | .reject, _ => ClientState.mk fallbackCurrencies fallbackNames
        (deriveRatesFromFallback "USD") true false
    | _, .reject => ClientState.mk fallbackCurrencies fallbackNames
        (deriveRatesFromFallback "USD") true false
    | .response cok cbody, .response rok rbody =>
      let codesJson : Json := if cok then cbody.getD .null else .null
      let ratesJson : Json := if rok then rbody.getD .null else .null
      let codesSuccess := cok && codesJson.isSuccess && codesJson.fieldIsArr "supported_codes"
      let ratesSuccess := rok && ratesJson.isSuccess && ratesJson.fieldTruthy "conversion_rates"
      { currencies :=
          if codesSuccess then sortCodes ((supportedPairs codesJson).map Prod.fst)
          else fallbackCurrencies
        currencyNames :=
          if codesSuccess then fromEntries (supportedPairs codesJson)
          else fallbackNames
        rates :=
          if ratesSuccess then
            setKey (extractRates ((ratesJson.getField "conversion_rates").getD .null))
              (baseCodeOf ratesJson) 1
          else deriveRatesFromFallback "USD"
        usingFallback := !(codesSuccess && ratesSuccess)
        loading := false }

/-- The numeraire code of a fetch-cycle outcome: the applied `base_code`
when the rates sub-fetch succeeded, USD on every fallback path. -/
def cycleNumeraire (apiBaseUrl : Option String)
    (codesFetch ratesFetch : FetchOutcome) : String :=
  if !(strTruthy apiBaseUrl) then "USD"
  else if codesFetch.throwsJson || ratesFetch.throwsJson then "USD"
  else
    match codesFetch, ratesFetch with
    | .reject, _ => "USD"
    | _, .reject => "USD"
    | .response _ _, .response rok rbody =>
      let ratesJson : Json := if rok then rbody.getD .null else .null
      let ratesSuccess := rok && ratesJson.isSuccess && ratesJson.fieldTruthy "conversion_rates"
      if ratesSuccess then baseCodeOf ratesJson else "USD"

/-- A proxy response together with the number of outbound calls made to the
upstream provider while serving it. -/
structure ProxyResult where
  status : Nat
  body : Json
  upstreamCalls : Nat

/-- The `ensureApiKey` guard body, src/unnamed/part_001 lines 34-38: the
error payload sent with HTTP 500 when `EXCHANGERATE_API_KEY` is not set. -/
def missingKeyBody : Json :=
  .obj [("error", .str "Missing EXCHANGERATE_API_KEY on the backend")]

/-- GET /codes handler, src/unnamed/part_001 lines 44-63. The upstream
call is one `fetch` followed by an unconditional `res.json()`; a rejection
or unparsable body lands in the catch block (HTTP 500 generic error). -/
def codesHandler (apiKey : Option String) (upstream : FetchOutcome) : ProxyResult :=
  if !(strTruthy apiKey) then ⟨500, missingKeyBody, 0⟩
  else
    match upstream with
    | .reject => ⟨500, .obj [("error", .str "Failed to fetch codes")], 1⟩
    | .response _ none => ⟨500, .obj [("error", .str "Failed to fetch codes")], 1⟩
    | .response ok (some j) =>
      if !ok || !(j.isSuccess) then
        ⟨502, .obj [("error", .str "Upstream error"), ("details", j)], 1⟩
      else ⟨200, j, 1⟩

/-- GET /rates handler, src/unnamed/part_001 lines 65-85, after the base
query parameter has been folded into the upstream URL (the base does not
affect the response logic). -/
def ratesHandler (apiKey : Option String) (upstream : FetchOutcome) : ProxyResult :=
  if !(strTruthy apiKey) then ⟨500, missingKeyBody, 0⟩
  else
    match upstream with
    | .reject => ⟨500, .obj [("error", .str "Failed to fetch rates")], 1⟩
    | .response _ none => ⟨500, .obj [("error", .str "Failed to fetch rates")], 1⟩
    | .response ok (some j) =>
      if !ok || !(j.isSuccess) then
        ⟨502, .obj [("error", .str "Upstream error"), ("details", j)], 1⟩
      else ⟨200, j, 1⟩

/-! ### Helper lemmas about association-list lookup -/

theorem lookup_mem {β : Type} {k : String} {v : β} :
    ∀ {l : List (String × β)}, l.lookup k = some v → (k, v) ∈ l := by
  intro l
  induction l with
  | nil => intro h; simp at h
  | cons p rest ih =>
    intro h
    obtain ⟨a, b⟩ := p
    rw [List.lookup] at h
    cases hbeq : (k == a) with
    | true =>
      rw [hbeq] at h
      simp only [Option.some.injEq] at h
      have ha : k = a := by
        have := (beq_iff_eq (a := k) (b := a)).mp hbeq
        exact this
      subst ha; subst h
      exact List.mem_cons_self _ _
    | false =>
      rw [hbeq] at h
      exact List.mem_cons_of_mem _ (ih h)

theorem lookup_setKey {β : Type} (k : String) (v : β) :
    ∀ (l : List (String × β)), (setKey l k v).lookup k = some v := by
  intro l
  induction l with
  | nil => simp [setKey, List.lookup]
  | cons p rest ih =>
    obtain ⟨a, b⟩ := p
    by_cases ha : a = k
    · subst ha
      simp [setKey, List.lookup]
    · have h1 : (a == k) = false := by simp [ha]
      have h2 : (k == a) = false := by simp [Ne.symm ha]
      simp [setKey, h1, List.lookup, h2, ih]

theorem lookup_map_snd {k : String} {b : ℚ} (f : ℚ → ℚ) :
    ∀ {l : List (String × ℚ)}, l.lookup k = some b →
      (l.map (fun p => (p.1, f p.2))).lookup k = some (f b) := by
  intro l
  induction l with
  | nil => intro h; simp at h
  | cons p rest ih =>
    intro h
    obtain ⟨a, c⟩ := p
    rw [List.lookup] at h
    cases hbeq : (k == a) with
    | true =>
      rw [hbeq] at h
      simp only [Option.some.injEq] at h
      subst h
      simp [List.lookup, hbeq]
    | false =>
      rw [hbeq] at h
      simp [List.lookup, hbeq]
      exact ih h

/-! ### Claims about the cross-rate computation -/

/-- C1: for every rate table whose values are positive numbers and every
pair of codes present in the table, the cross rate equals
table[target] / table[source]; for a code present in the table the cross
rate from the code to itself is exactly 1. -/
theorem crossRate_eq_table_ratio (t : RateTableJs)
    (hpos : ∀ p ∈ t, ∃ q : ℚ, p.2 = JsVal.num q ∧ 0 < q) :
    (∀ src tgt vs vt, t.lookup src = some vs → t.lookup tgt = some vt →
        rate t src tgt = vt.toQ / vs.toQ) ∧
    (∀ c v, t.lookup c = some v → rate t c c = 1) := by
  have htruthy : ∀ x (v : JsVal), t.lookup x = some v → v.truthy = true ∧ v.toQ ≠ 0 := by
    intro x v hx
    obtain ⟨q, hq, hqpos⟩ := hpos _ (lookup_mem hx)
    simp only at hq
    subst hq
    exact ⟨by simp [JsVal.truthy, ne_of_gt hqpos], by simpa [JsVal.toQ] using ne_of_gt hqpos⟩
  constructor
  · intro src tgt vs vt hs ht
    obtain ⟨hts, _⟩ := htruthy _ _ hs
    obtain ⟨htt, _⟩ := htruthy _ _ ht
    simp [rate, hs, ht, optTruthy, hts, htt]
  · intro c v hc
    obtain ⟨htc, hnz⟩ := htruthy _ _ hc
    simp [rate, hc, optTruthy, htc]
    exact div_self hnz

/-- Witness for C1 on a concrete two-entry table. -/
theorem crossRate_eq_table_ratio_check :
    rate [("USD", JsVal.num 1), ("EUR", JsVal.num (92/100))] "USD" "EUR"
        = (JsVal.num (92/100)).toQ / (JsVal.num 1).toQ ∧
    rate [("USD", JsVal.num 1), ("EUR", JsVal.num (92/100))] "EUR" "EUR" = 1 := by
  have hpos : ∀ p ∈ [("USD", JsVal.num 1), ("EUR", JsVal.num (92/100))],
      ∃ q : ℚ, p.2 = JsVal.num q ∧ 0 < q := by
    intro p hp
    simp only [List.mem_cons, List.mem_singleton] at hp
    rcases hp with hp | hp | hp
    · exact hp ▸ ⟨1, rfl, by norm_num⟩
    · exact hp ▸ ⟨92/100, rfl, by norm_num⟩
    · simp at hp
  have h := crossRate_eq_table_ratio _ hpos
  refine ⟨h.1 "USD" "EUR" (JsVal.num 1) (JsVal.num (92/100)) ?_ ?_,
    h.2 "EUR" (JsVal.num (92/100)) ?_⟩ <;> simp [List.lookup]

/-- C9: if either code is absent from the rate table, the cross rate is
exactly 1 instead of failing. -/
theorem crossRate_absent_default (t : RateTableJs) (src tgt : String)
    (h : t.lookup src = none ∨ t.lookup tgt = none) :
    rate t src tgt = 1 := by
  rcases h with h | h <;> simp [rate, h, optTruthy]

/-- Witness for C9 on the empty table. -/
theorem crossRate_absent_default_check :
    rate [] "USD" "EUR" = 1 :=
  crossRate_absent_default [] "USD" "EUR" (Or.inl rfl)

/-- C10: the cross-rate computation is total and never divides by zero:
when either code maps to 0 or to NaN the result is 1, and the truthiness
guard (not key membership) is what takes the non-dividing branch. -/
theorem crossRate_zero_nan_default (t : RateTableJs) (src tgt : String)
    (h : t.lookup src = some (JsVal.num 0) ∨ t.lookup src = some JsVal.nan ∨
         t.lookup tgt = some (JsVal.num 0) ∨ t.lookup tgt = some JsVal.nan) :
    rate t src tgt = 1 ∧
      (!(optTruthy (t.lookup src)) || !(optTruthy (t.lookup tgt))) = true := by
  rcases h with h | h | h | h <;>
    simp [rate, h, optTruthy, JsVal.truthy]

/-- Witness for C10 on a table with a zero entry and one with a NaN entry. -/
theorem crossRate_zero_nan_default_check :
    rate [("USD", JsVal.num 0)] "USD" "USD" = 1 ∧
      (!(optTruthy (List.lookup "USD" [("USD", JsVal.num 0)])) ||
       !(optTruthy (List.lookup "USD" [("USD", JsVal.num 0)]))) = true :=
  crossRate_zero_nan_default [("USD", JsVal.num 0)] "USD" "USD" (Or.inl (by simp [List.lookup]))

/-! ### Helper lemmas about the fallback derivation -/

theorem baseRates_lookup_ne_zero {base : String} {b : ℚ}
    (hb : baseRates.lookup base = some b) : b ≠ 0 := by
  have hmem := lookup_mem hb
  simp only [baseRates, List.mem_cons, List.not_mem_nil, or_false] at hmem
  rcases hmem with h | h | h | h | h | h | h <;>
    (rw [Prod.mk.injEq] at h; rcases h with ⟨-, h2⟩; rw [h2]; norm_num)

theorem deriveRates_eq_map {base : String} {b : ℚ}
    (hb : baseRates.lookup base = some b) :
    deriveRatesFromFallback base = baseRates.map (fun p => (p.1, (1 / b) * p.2)) := by
  have hbne : b ≠ 0 := baseRates_lookup_ne_zero hb
  simp [deriveRatesFromFallback, hb, optQTruthy, hbne]

theorem deriveRates_lookup_base {base : String} {b : ℚ}
    (hb : baseRates.lookup base = some b) :
    (deriveRatesFromFallback base).lookup base = some 1 := by
  have hbne : b ≠ 0 := baseRates_lookup_ne_zero hb
  rw [deriveRates_eq_map hb, lookup_map_snd (fun q => (1 / b) * q) hb,
    one_div_mul_cancel hbne]

theorem derive_usd_lookup_one : (deriveRatesFromFallback "USD").lookup "USD" = some 1 :=
  deriveRates_lookup_base (b := 1) (by simp [baseRates, List.lookup])

/-! ### Claims about the fallback derivation and the fetch cycle -/

/-- C3: for every base code present in the built-in table, the fallback
derivation remaps every entry to usdPerBase * builtIn[code] with
usdPerBase = 1 / builtIn[base], and the entry for the base itself is
exactly 1. -/
theorem deriveRates_base_spec (base : String) (b : ℚ)
    (hb : baseRates.lookup base = some b) :
    deriveRatesFromFallback base = baseRates.map (fun p => (p.1, (1 / b) * p.2)) ∧
      (deriveRatesFromFallback base).lookup base = some 1 :=
  ⟨deriveRates_eq_map hb, deriveRates_lookup_base hb⟩

/-- Witness for C3 at base EUR. -/
theorem deriveRates_base_spec_check :
    deriveRatesFromFallback "EUR"
        = baseRates.map (fun p => (p.1, (1 / (92/100 : ℚ)) * p.2)) ∧
      (deriveRatesFromFallback "EUR").lookup "EUR" = some 1 :=
  deriveRates_base_spec "EUR" (92/100) (by simp [baseRates, List.lookup])

/-- C2: after every fetch-cycle outcome (missing configuration, double
success, partial failure, or exception) the resulting rate table maps the
cycle numeraire to exactly 1. -/
theorem cycle_rates_numeraire_one (apiBaseUrl : Option String)
    (codesFetch ratesFetch : FetchOutcome) :
    (loadSymbolsAndRates apiBaseUrl codesFetch ratesFetch).rates.lookup
        (cycleNumeraire apiBaseUrl codesFetch ratesFetch) = some 1 := by
  unfold loadSymbolsAndRates cycleNumeraire
  cases hurl : strTruthy apiBaseUrl with
  | false => simpa using derive_usd_lookup_one
  | true =>
    cases hthrow : codesFetch.throwsJson || ratesFetch.throwsJson with
    | true => simpa [hthrow] using derive_usd_lookup_one
    | false =>
      rw [Bool.or_eq_false_iff] at hthrow
      cases codesFetch with
      | reject => simp [FetchOutcome.throwsJson] at hthrow
      | response cok cbody =>
        cases ratesFetch with
        | reject => simp [FetchOutcome.throwsJson] at hthrow
        | response rok rbody =>
          simp only [hurl, Bool.not_true, Bool.false_eq_true, if_false,
            hthrow.1, hthrow.2, Bool.or_self]
          cases hrs : (rok && (if rok then rbody.getD .null else Json.null).isSuccess
              && (if rok then rbody.getD .null else Json.null).fieldTruthy "conversion_rates") with
          | true => simp [hrs, lookup_setKey]
          | false => simp [hrs, derive_usd_lookup_one]

/-- C4: if the fetch cycle throws (either promise rejecting, or a called
res.json() failing), the final state has both the catalog and the rate
table reset to the built-in defaults, usingFallback forced on, and
loading cleared. -/
theorem cycle_exception_resets_both (apiBaseUrl : Option String)
    (codesFetch ratesFetch : FetchOutcome)
    (hurl : strTruthy apiBaseUrl = true)
    (hthrow : (codesFetch.throwsJson || ratesFetch.throwsJson) = true) :
    loadSymbolsAndRates apiBaseUrl codesFetch ratesFetch =
      { currencies := fallbackCurrencies
        currencyNames := fallbackNames
        rates := deriveRatesFromFallback "USD"
        usingFallback := true
        loading := false } := by
  unfold loadSymbolsAndRates
  simp [hurl, hthrow]

/-- Witness for C4: configured URL, codes fetch succeeds with a valid body
but the rates body fails to parse (res.json() throws). -/
theorem cycle_exception_resets_both_check :
    strTruthy (some "http://backend") = true ∧
    ((FetchOutcome.response true (some (Json.obj [("result", Json.str "success"),
        ("supported_codes", Json.arr [])]))).throwsJson
      || (FetchOutcome.response true none).throwsJson) = true ∧
    loadSymbolsAndRates (some "http://backend")
      (.response true (some (Json.obj [("result", Json.str "success"),
        ("supported_codes", Json.arr [])])))
      (.response true none) =
      { currencies := fallbackCurrencies
        currencyNames := fallbackNames
        rates := deriveRatesFromFallback "USD"
        usingFallback := true
        loading := false } :=
  ⟨by simp [strTruthy], by simp [FetchOutcome.throwsJson],
    cycle_exception_resets_both _ _ _ (by simp [strTruthy])
      (by simp [FetchOutcome.throwsJson])⟩

/-- C5: codes sub-fetch succeeds while the rates body parses with a
non-success result: the final catalog is the parsed one, the rate table is
the USD fallback derivation, and the cycle ends in fallback status with
loading cleared. -/
theorem cycle_codes_ok_rates_error (apiBaseUrl : Option String) (cj rj : Json)
    (hurl : strTruthy apiBaseUrl = true)
    (hcs : cj.isSuccess = true)
    (hca : cj.fieldIsArr "supported_codes" = true)
    (hrs : rj.isSuccess = false) :
    loadSymbolsAndRates apiBaseUrl (.response true (some cj)) (.response true (some rj)) =
      { currencies := sortCodes ((supportedPairs cj).map Prod.fst)
        currencyNames := fromEntries (supportedPairs cj)
        rates := deriveRatesFromFallback "USD"
        usingFallback := true
        loading := false } := by
  unfold loadSymbolsAndRates
  simp [hurl, FetchOutcome.throwsJson, hcs, hca, hrs]

/-- Witness for C5 on a concrete catalog body and error rates body. -/
theorem cycle_codes_ok_rates_error_check :
    (Json.obj [("result", Json.str "success"),
      ("supported_codes", Json.arr [Json.arr [Json.str "USD", Json.str "US Dollar"]])]).isSuccess
        = true ∧
    (Json.obj [("result", Json.str "error")]).isSuccess = false ∧
    loadSymbolsAndRates (some "http://backend")
      (.response true (some (Json.obj [("result", Json.str "success"),
        ("supported_codes", Json.arr [Json.arr [Json.str "USD", Json.str "US Dollar"]])])))
      (.response true (some (Json.obj [("result", Json.str "error")]))) =
      { currencies := sortCodes ((supportedPairs (Json.obj [("result", Json.str "success"),
          ("supported_codes", Json.arr [Json.arr [Json.str "USD", Json.str "US Dollar"]])])).map
            Prod.fst)
        currencyNames := fromEntries (supportedPairs (Json.obj [("result", Json.str "success"),
          ("supported_codes", Json.arr [Json.arr [Json.str "USD", Json.str "US Dollar"]])]))
        rates := deriveRatesFromFallback "USD"
        usingFallback := true
        loading := false } :=
  ⟨by simp [Json.isSuccess, Json.getField, List.lookup],
    by simp [Json.isSuccess, Json.getField, List.lookup],
    cycle_codes_ok_rates_error _ _ _ (by simp [strTruthy])
      (by simp [Json.isSuccess, Json.getField, List.lookup])
      (by simp [Json.fieldIsArr, Json.getField, List.lookup])
      (by simp [Json.isSuccess, Json.getField, List.lookup])⟩

/-- C6: with no configured backend address, the cycle's final state is the
built-in catalog, the USD fallback rate table, fallback status, loading
cleared — and the state does not depend on any fetch outcome (no network
I/O is observed). -/
theorem cycle_no_config (apiBaseUrl : Option String)
    (cf rf cf2 rf2 : FetchOutcome)
    (hurl : strTruthy apiBaseUrl = false) :
    loadSymbolsAndRates apiBaseUrl cf rf =
      { currencies := fallbackCurrencies
        currencyNames := fallbackNames
        rates := deriveRatesFromFallback "USD"
        usingFallback := true
        loading := false } ∧
    loadSymbolsAndRates apiBaseUrl cf rf = loadSymbolsAndRates apiBaseUrl cf2 rf2 := by
  unfold loadSymbolsAndRates
  simp [hurl]

/-- Witness for C6 with an absent environment variable. -/
theorem cycle_no_config_check :
    loadSymbolsAndRates none .reject .reject =
      { currencies := fallbackCurrencies
        currencyNames := fallbackNames
        rates := deriveRatesFromFallback "USD"
        usingFallback := true
        loading := false } ∧
    loadSymbolsAndRates none .reject .reject =
      loadSymbolsAndRates none (.response true none) (.response false none) :=
  cycle_no_config none .reject .reject (.response true none) (.response false none) rfl

/-! ### Claims about the rate proxy -/

/-- C7: with no configured upstream credential, both data endpoints answer
HTTP 500 with the explanatory error body and make zero outbound calls,
whatever the upstream would have answered. -/
theorem proxy_missing_key_500 (apiKey : Option String) (upc upr : FetchOutcome)
    (hkey : strTruthy apiKey = false) :
    codesHandler apiKey upc = ⟨500, missingKeyBody, 0⟩ ∧
    ratesHandler apiKey upr = ⟨500, missingKeyBody, 0⟩ := by
  unfold codesHandler ratesHandler
  simp [hkey]

/-- Witness for C7 with an unset key. -/
theorem proxy_missing_key_500_check :
    codesHandler none .reject = ⟨500, missingKeyBody, 0⟩ ∧
    ratesHandler none (.response true (some (Json.obj []))) = ⟨500, missingKeyBody, 0⟩ :=
  proxy_missing_key_500 none .reject (.response true (some (Json.obj []))) rfl

/-- C8: when the upstream body parses as JSON but does not carry the
success indicator (non-success result field, or non-ok HTTP status), both
endpoints answer HTTP 502 with an error-and-details body holding the
upstream body, after exactly one outbound call. -/
theorem proxy_upstream_error_502 (apiKey : Option String)
    (ok1 ok2 : Bool) (j1 j2 : Json)
    (hkey : strTruthy apiKey = true)
    (h1 : ok1 = false ∨ j1.isSuccess = false)
    (h2 : ok2 = false ∨ j2.isSuccess = false) :
    codesHandler apiKey (.response ok1 (some j1)) =
      ⟨502, .obj [("error", .str "Upstream error"), ("details", j1)], 1⟩ ∧
    ratesHandler apiKey (.response ok2 (some j2)) =
      ⟨502, .obj [("error", .str "Upstream error"), ("details", j2)], 1⟩ := by
  unfold codesHandler ratesHandler
  rcases h1 with h1 | h1 <;> rcases h2 with h2 | h2 <;> simp [hkey, h1, h2]

/-- Witness for C8 with an upstream error result on both endpoints. -/
theorem proxy_upstream_error_502_check :
    (Json.obj [("result", Json.str "error")]).isSuccess = false ∧
    codesHandler (some "k") (.response true (some (Json.obj [("result", Json.str "error")]))) =
      ⟨502, .obj [("error", .str "Upstream error"),
        ("details", Json.obj [("result", Json.str "error")])], 1⟩ ∧
    ratesHandler (some "k") (.response false (some (Json.obj []))) =
      ⟨502, .obj [("error", .str "Upstream error"), ("details", Json.obj [])], 1⟩ := by
  have h := proxy_upstream_error_502 (some "k") true false
    (Json.obj [("result", Json.str "error")]) (Json.obj []) rfl
    (Or.inr (by simp [Json.isSuccess, Json.getField, List.lookup])) (Or.inl rfl)
  exact ⟨by simp [Json.isSuccess, Json.getField, List.lookup], h.1, h.2⟩

end CurrencyConverter
